import Mathlib

/-
  Verification of the notebook alert system (notebook_auto_alert.py and
  _show_alert.py), shallowly embedded in Lean.

  The Python code is side-effecting: it reads the environment (IPython shell,
  user namespace, parent process command line, filesystem), mutates two
  module-level booleans, prints to the console and spawns processes.  The
  embedding makes every environment read an explicit field of an environment
  record, threads the two booleans as explicit state, and records the
  observable effects (Dispatcher calls, process spawns, console prints) as an
  event trace.
-/

namespace NBAlert

/-- Event trace of the dispatcher and session operations.  A `notify` event
records one invocation of the Dispatcher (the `_show_alert` function in
`notebook_auto_alert.py`) with its arguments; `spawn` records a successful
`subprocess.Popen` of the Notifier; `consoleLine` records one `print`;
`origTraceback` records one invocation of the pristine traceback-display
routine that the ErrorHook captured at install time, with the arguments it
received. -/
inductive Event where
  | notify (success : Bool) (message : String) (notebookName : Option String)
  | spawn (exe : String) (script : String) (argv : List String)
  | consoleLine (text : String)
  | origTraceback (args : List String)
  deriving DecidableEq, Repr

/-- Python string slicing `s[:n]`: the first `n` characters of `s`. -/
def strTruncate (s : String) (n : Nat) : String := String.mk (s.data.take n)

/-- Containment of `pat` at the end of `s`, used to state that a console
line carries the original message. -/
def strCarries (pat s : String) : Prop := ∃ pre : String, s = pre ++ pat

/-- Python `str.endswith`. -/
def strEndsWith (s suffixPat : String) : Bool := suffixPat.data.isSuffixOf s.data

/-- Final path component of `p`, as in `pathlib.PurePath.name` for POSIX
paths. -/
def pathName (p : String) : String := (p.splitOn "/").getLastD ""

/-- Index of the last dot of a character list, if any. -/
def lastDotIdx (cs : List Char) : Option Nat :=
  match cs.reverse.findIdx? (fun c => c = '.') with
  | some j => some (cs.length - 1 - j)
  | none => none

/-- Python `pathlib.PurePath.stem`: the final path component without its
suffix.  The suffix is stripped only when the last dot is neither the first
nor the last character of the name. -/
def pathStem (p : String) : String :=
  let name := pathName p
  let cs := name.data
  match lastDotIdx cs with
  | some i => if 0 < i ∧ i < cs.length - 1 then String.mk (cs.take i) else name
  | none => name

/-- Environment read by `_get_notebook_name`.  `ipythonAvailable` is whether
`from IPython import get_ipython` succeeds; `shellPresent` is whether
`get_ipython()` returns a shell.  `userNsVsc` models the VS Code strategy:
`none` means reading `ip.user_ns` raised (the failure is caught by the inner
bare `except`), `some none` means the key `__vsc_ipynb_file__` is absent, and
`some (some p)` means the key is present with value `p`.  `parentCmdline`
models the psutil strategy: `none` means the psutil import or the
parent-process access raised (again caught), `some cmdline` is the parent
command line. -/
structure NameEnv where
  ipythonAvailable : Bool
  shellPresent : Bool
  userNsVsc : Option (Option String)
  parentCmdline : Option (List String)
  deriving DecidableEq, Repr

/-- The `_get_notebook_name` function of `notebook_auto_alert.py`.  The
connection-file and history-file blocks of the source bind no result and only
fall through, so they contribute nothing to the returned value.  The VS Code
strategy is tried before the psutil strategy; each failure is caught by its
own `except: pass` and falls through; the outer `except` returns `None`. -/
def _get_notebook_name (env : NameEnv) : Option String :=
  if !env.ipythonAvailable then none
  else if !env.shellPresent then none
  else
    match env.userNsVsc with
    | some (some nbPath) => some (pathStem nbPath)
    | _ =>
      match env.parentCmdline with
      | some cmdline =>
        match cmdline.find? (fun arg => strEndsWith arg ".ipynb") with
        | some arg => some (pathStem arg)
        | none => none
      | none => none

/-- Spec-level view of the first label-resolution strategy: the
interpreter-injected notebook-file variable `__vsc_ipynb_file__`. -/
def vscStrategy (env : NameEnv) : Option String :=
  match env.userNsVsc with
  | some (some nbPath) => some (pathStem nbPath)
  | _ => none

/-- Spec-level view of the second label-resolution strategy: the first
argument of the parent process command line ending in `.ipynb`. -/
def cmdlineStrategy (env : NameEnv) : Option String :=
  match env.parentCmdline with
  | some cmdline => (cmdline.find? (fun arg => strEndsWith arg ".ipynb")).map pathStem
  | none => none

/-- Environment read by the Dispatcher (`_show_alert` and
`_get_alert_script_path`).  The three `Has` flags record whether
`_show_alert.py` exists in the directory of the module, the current working
directory, and the home directory; the three `Path` fields are those
directories.  `spawnExc` is `some e` when `subprocess.Popen` raises an
exception rendered as `e`, and `none` when the spawn succeeds. -/
structure DispatchEnv where
  pyExecutable : String
  scriptDirPath : String
  scriptDirHas : Bool
  cwdPath : String
  cwdHas : Bool
  homePath : String
  homeHas : Bool
  spawnExc : Option String
  nameEnv : NameEnv
  deriving DecidableEq, Repr

/-- The `_get_alert_script_path` function: ordered search for
`_show_alert.py` in the module directory, the current working directory and
the home directory; first match wins, `none` when absent everywhere. -/
def _get_alert_script_path (env : DispatchEnv) : Option String :=
  if env.scriptDirHas then some (env.scriptDirPath ++ "/_show_alert.py")
  else if env.cwdHas then some (env.cwdPath ++ "/_show_alert.py")
  else if env.homeHas then some (env.homePath ++ "/_show_alert.py")
  else none

/-- Warning printed when the Notifier script is not found. -/
def warnNotFoundLine : String :=
  "⚠ Warning: _show_alert.py not found. Cannot show desktop alert."

/-- Warning printed when the spawn raises, carrying the exception text. -/
def warnLaunchLine (e : String) : String := "⚠ Warning: Could not launch alert: " ++ e

/-- The degraded-mode console line of `_show_alert`.  The source prints
`f-string if message else empty`, so the line is empty when the message is
empty. -/
def fallbackLine (success : Bool) (message : String) : String :=
  if message = "" then ""
  else (if success then "✓ SUCCESS: " else "✓ ERROR: ") ++ message

/-- The Dispatcher: the `_show_alert` function of `notebook_auto_alert.py`.
The leading `notify` event records the invocation itself; the remaining
events are its observable effects.  When the Notifier script is not found,
or the spawn raises, the failure is degraded to console prints; otherwise the
Notifier is spawned with positional arguments
`[alertType, message, notebookName]` after the interpreter and script path. -/
def _show_alert (env : DispatchEnv) (success : Bool) (message : String)
    (notebook_name : Option String) : List Event :=
  Event.notify success message notebook_name ::
    match _get_alert_script_path env with
    | none =>
        [Event.consoleLine warnNotFoundLine,
         Event.consoleLine (fallbackLine success message)]
    | some script =>
        let alertType := if success then "success" else "error"
        let nbName :=
          match notebook_name with
          | some n => n
          | none => (_get_notebook_name env.nameEnv).getD ""
        match env.spawnExc with
        | some e =>
            [Event.consoleLine (warnLaunchLine e),
             Event.consoleLine (fallbackLine success message)]
        | none =>
            [Event.spawn env.pyExecutable script [alertType, message, nbName]]

/-- Default message of `done`. -/
def doneDefaultMessage : String := "Notebook completed successfully!"

/-- Default message of `error`. -/
def errorDefaultMessage : String := "Notebook encountered an error!"

/-- The `done` session operation: one Dispatcher call with success, then a
confirmation print. -/
def done (env : DispatchEnv) (message : String) : List Event :=
  _show_alert env true message none ++ [Event.consoleLine ("✓ " ++ message)]

/-- The `error` session operation: one Dispatcher call with failure, then a
confirmation print. -/
def error (env : DispatchEnv) (message : String) : List Event :=
  _show_alert env false message none ++ [Event.consoleLine ("✗ " ++ message)]

/-- The traceback-display routine currently stored in the shell.
`original` is the routine present before any install; `wrapped inner` is the
`custom_showtraceback` closure whose captured `original_showtraceback` is
`inner`. -/
inductive TracebackRoutine where
  | original
  | wrapped (inner : TracebackRoutine)
  deriving DecidableEq, Repr

/-- Number of wrapper layers over the pristine routine. -/
def wrapDepth : TracebackRoutine → Nat
  | .original => 0
  | .wrapped inner => wrapDepth inner + 1

/-- Session state: the shell context, the routine stored in
`ip.showtraceback`, and the two module globals `_error_handler_installed`
and `_error_occurred`. -/
structure Session where
  ipythonAvailable : Bool
  shellPresent : Bool
  showtraceback : TracebackRoutine
  errorHandlerInstalled : Bool
  errorOccurred : Bool
  deriving DecidableEq, Repr

/-- Exception context as yielded by `sys.exc_info()` when a type and a value
are present: the name of the exception type and the `str` of the value. -/
structure ExcInfo where
  typeName : String
  valueStr : String
  deriving DecidableEq, Repr

/-- The error message the wrapper dispatches: exception kind plus the value
string truncated to 100 characters, or the generic fallback when no
exception context is available. -/
def errorMessage (info : Option ExcInfo) : String :=
  match info with
  | some e => e.typeName ++ ": " ++ strTruncate e.valueStr 100
  | none => "An error occurred during execution"

/-- One invocation of a traceback routine on exception context `info` with
arguments `args`, threading the `_error_occurred` global.  The pristine
routine only displays the traceback.  The `custom_showtraceback` wrapper
first invokes the routine it captured, with the same arguments, and then
consults `_error_occurred`: when still false it sets the global and calls
`_show_alert` with the extracted error message. -/
def runTraceback (env : DispatchEnv) (args : List String) (info : Option ExcInfo) :
    TracebackRoutine → Bool → Bool × List Event
  | .original, occurred => (occurred, [Event.origTraceback args])
  | .wrapped inner, occurred =>
      let r := runTraceback env args info inner occurred
      if r.1 then r
      else (true, r.2 ++ _show_alert env false (errorMessage info) none)

/-- A sequence of uncaught exceptions hitting the installed routine, each
with its own display arguments and exception context, threading
`_error_occurred`. -/
def runExceptions (env : DispatchEnv) :
    List (List String × Option ExcInfo) → TracebackRoutine → Bool → Bool × List Event
  | [], _, occurred => (occurred, [])
  | inv :: rest, tb, occurred =>
      let r1 := runTraceback env inv.1 inv.2 tb occurred
      let r2 := runExceptions env rest tb r1.1
      (r2.1, r1.2 ++ r2.2)

/-- Banner printed by `_setup_auto_error_detection` on a successful install. -/
def setupBanner : String := "✓ Auto-error detection enabled - will alert if any cell fails!"

/-- The `_setup_auto_error_detection` function: returns immediately when the
handler is already installed; any failure inside the `try` (IPython missing)
or a `None` shell leaves the session untouched; otherwise the current
routine is wrapped and the installed flag set. -/
def _setup_auto_error_detection (s : Session) : Session × List Event :=
  if s.errorHandlerInstalled then (s, [])
  else if !s.ipythonAvailable then (s, [])
  else if !s.shellPresent then (s, [])
  else
    ({ s with showtraceback := .wrapped s.showtraceback, errorHandlerInstalled := true },
     [Event.consoleLine setupBanner])

/-- First banner line printed by `enable_alerts`. -/
def enableBanner1 : String := "✓ Notebook alerts enabled!"

/-- Second banner line printed by `enable_alerts`. -/
def enableBanner2 : String := "  - Errors will trigger automatic red alerts"

/-- Third banner line printed by `enable_alerts`. -/
def enableBanner3 : String := "  - Call done() in last cell for success alert"

/-- The three console lines `enable_alerts` always prints after the install
attempt. -/
def enableBannerEvents : List Event :=
  [Event.consoleLine enableBanner1, Event.consoleLine enableBanner2,
   Event.consoleLine enableBanner3]

/-- The `enable_alerts` function: install attempt followed by the banner. -/
def enable_alerts (s : Session) : Session × List Event :=
  let r := _setup_auto_error_detection s
  (r.1, r.2 ++ enableBannerEvents)

/-- One user-visible action in a session: a manual `done` or `error` call,
an `enable_alerts` call, or an uncaught exception reaching the stored
traceback routine. -/
inductive SessionAction where
  | callDone (m : String)
  | callError (m : String)
  | callEnable
  | raiseException (args : List String) (info : Option ExcInfo)
  deriving DecidableEq, Repr

/-- Effect of one action on the session.  The bodies of `done` and `error`
reference neither `_error_occurred` nor `_error_handler_installed`, so the
session state passes through them unchanged. -/
def stepSession (env : DispatchEnv) (s : Session) : SessionAction → Session × List Event
  | .callDone m => (s, done env m)
  | .callError m => (s, error env m)
  | .callEnable => enable_alerts s
  | .raiseException args info =>
      let r := runTraceback env args info s.showtraceback s.errorOccurred
      ({ s with errorOccurred := r.1 }, r.2)

/-- Run a list of actions in order, accumulating the event trace. -/
def runSession (env : DispatchEnv) (s : Session) : List SessionAction → Session × List Event
  | [] => (s, [])
  | a :: rest =>
      let r1 := stepSession env s a
      let r2 := runSession env r1.1 rest
      (r2.1, r1.2 ++ r2.2)

/-- Predicate for a Dispatcher invocation event. -/
def isNotifyEvent : Event → Bool
  | .notify _ _ _ => true
  | _ => false

/-- Predicate for a Dispatcher invocation with success status. -/
def isSuccessNotify : Event → Bool
  | .notify true _ _ => true
  | _ => false

/-- Predicate for a Dispatcher invocation with error status. -/
def isErrorNotify : Event → Bool
  | .notify false _ _ => true
  | _ => false

/-- Predicate for a process-spawn event. -/
def isSpawnEvent : Event → Bool
  | .spawn _ _ _ => true
  | _ => false

/-- Number of error-status Dispatcher invocations in a trace. -/
def countErrorNotifies (evs : List Event) : Nat := evs.countP isErrorNotify

/-- Outcome of the Notifier command-line entry point: either the usage
message with exit status, or an alert window with its parameters. -/
inductive MainOutcome where
  | usageExit (line : String) (code : Nat)
  | window (success : Bool) (message : String) (notebookName : String)
  deriving DecidableEq, Repr

/-- Usage line printed by `_show_alert.py` when no positional argument is
given. -/
def usageLine : String :=
  "Usage: python _show_alert.py <success|error> [message] [notebook_name]"

/-- The `__main__` block of `_show_alert.py`, over the positional arguments
`sys.argv[1:]`.  With no positional argument it prints the usage line and
exits with status 1; otherwise the first argument is the status token,
compared verbatim against the string success, and the optional second and
third arguments default to the empty string. -/
def showAlertMain (positional : List String) : MainOutcome :=
  match positional with
  | [] => .usageExit usageLine 1
  | alertType :: rest =>
      .window (alertType == "success") (rest.getD 0 "") (rest.getD 1 "")

/-! Helper lemmas about the dispatcher trace. -/

lemma show_alert_notify_mem (env : DispatchEnv) (succ : Bool) (m : String)
    (n : Option String) : Event.notify succ m n ∈ _show_alert env succ m n := by
  unfold _show_alert
  exact List.mem_cons_self _ _

lemma show_alert_countP (env : DispatchEnv) (succ : Bool) (m : String)
    (n : Option String) (p : Event → Bool)
    (hc : ∀ t, p (Event.consoleLine t) = false)
    (hs : ∀ e sc argv, p (Event.spawn e sc argv) = false) :
    (_show_alert env succ m n).countP p = if p (Event.notify succ m n) then 1 else 0 := by
  unfold _show_alert
  cases hpath : _get_alert_script_path env with
  | none => simp [List.countP_cons, hc]
  | some script =>
      cases hexc : env.spawnExc with
      | none => simp [List.countP_cons, hc, hs]
      | some e => simp [List.countP_cons, hc, hs]

lemma isNotify_consoleLine (t : String) : isNotifyEvent (Event.consoleLine t) = false := rfl

lemma isNotify_spawn (e sc : String) (argv : List String) :
    isNotifyEvent (Event.spawn e sc argv) = false := rfl

lemma show_alert_notify_count (env : DispatchEnv) (succ : Bool) (m : String)
    (n : Option String) : (_show_alert env succ m n).countP isNotifyEvent = 1 := by
  rw [show_alert_countP env succ m n isNotifyEvent (fun _ => rfl) (fun _ _ _ => rfl)]
  cases succ <;> rfl

lemma show_alert_error_count (env : DispatchEnv) (succ : Bool) (m : String)
    (n : Option String) :
    (_show_alert env succ m n).countP isErrorNotify = if succ then 0 else 1 := by
  rw [show_alert_countP env succ m n isErrorNotify (fun _ => rfl) (fun _ _ _ => rfl)]
  cases succ <;> rfl

lemma show_alert_success_count (env : DispatchEnv) (succ : Bool) (m : String)
    (n : Option String) :
    (_show_alert env succ m n).countP isSuccessNotify = if succ then 1 else 0 := by
  rw [show_alert_countP env succ m n isSuccessNotify (fun _ => rfl) (fun _ _ _ => rfl)]
  cases succ <;> rfl

lemma errorNotify_le_notify (evs : List Event) :
    evs.countP isErrorNotify ≤ evs.countP isNotifyEvent := by
  refine List.countP_mono_left (fun e _ he => ?_)
  cases e with
  | notify s m n => rfl
  | spawn e sc argv => exact absurd he (by simp [isErrorNotify])
  | consoleLine t => exact absurd he (by simp [isErrorNotify])
  | origTraceback a => exact absurd he (by simp [isErrorNotify])

lemma fallback_carries (succ : Bool) (m : String) : strCarries m (fallbackLine succ m) := by
  unfold strCarries fallbackLine
  by_cases h : m = ""
  · subst h
    exact ⟨"", rfl⟩
  · exact ⟨if succ then "✓ SUCCESS: " else "✓ ERROR: ", by simp [h]⟩

/-! Helper lemmas about the ErrorHook wrapper. -/

lemma runTraceback_wrapped_original (env : DispatchEnv) (args : List String)
    (info : Option ExcInfo) (occurred : Bool) :
    runTraceback env args info (.wrapped .original) occurred =
      (true, Event.origTraceback args ::
        (if occurred then [] else _show_alert env false (errorMessage info) none)) := by
  cases occurred <;> simp [runTraceback]

lemma runTraceback_occurred (env : DispatchEnv) (args : List String)
    (info : Option ExcInfo) (tb : TracebackRoutine) :
    (runTraceback env args info tb true).1 = true ∧
    (runTraceback env args info tb true).2.countP isNotifyEvent = 0 := by
  induction tb with
  | original => simp [runTraceback, isNotifyEvent]
  | wrapped inner ih =>
      obtain ⟨h1, h2⟩ := ih
      simp only [runTraceback]
      simp [h1, h2]

lemma runExceptions_occurred (env : DispatchEnv)
    (invs : List (List String × Option ExcInfo)) (tb : TracebackRoutine) :
    (runExceptions env invs tb true).1 = true ∧
    (runExceptions env invs tb true).2.countP isNotifyEvent = 0 := by
  induction invs with
  | nil => simp [runExceptions]
  | cons inv rest ih =>
      obtain ⟨h1, h2⟩ := runTraceback_occurred env inv.1 inv.2 tb
      simp only [runExceptions]
      simp [h1, h2, List.countP_append, ih.1, ih.2]

lemma runExceptions_original_no_notify (env : DispatchEnv)
    (invs : List (List String × Option ExcInfo)) (b : Bool) :
    (runExceptions env invs .original b).2.countP isNotifyEvent = 0 := by
  induction invs generalizing b with
  | nil => simp [runExceptions]
  | cons inv rest ih =>
      simp [runExceptions, runTraceback, List.countP_append, isNotifyEvent, ih]

lemma strTruncate_length_le (s : String) (n : Nat) : (strTruncate s n).length ≤ n :=
  List.length_take_le n s.data

/-- C1: with the ErrorHook installed (the shell routine is the wrapper over
the pristine routine) and the session error flag initially false, any
sequence of one or more invocations of the wrapped routine produces exactly
one Dispatcher call with error status: the first invocation dispatches
exactly one and sets the flag, every later invocation in the same session
dispatches nothing, and the whole run dispatches exactly one. -/
theorem auto_error_alert_exactly_once (env : DispatchEnv)
    (first : List String × Option ExcInfo) (rest : List (List String × Option ExcInfo)) :
    countErrorNotifies (runTraceback env first.1 first.2 (.wrapped .original) false).2 = 1 ∧
    (runTraceback env first.1 first.2 (.wrapped .original) false).1 = true ∧
    countErrorNotifies (runExceptions env rest (.wrapped .original) true).2 = 0 ∧
    countErrorNotifies
      (runExceptions env (first :: rest) (.wrapped .original) false).2 = 1 := by
  have hw := runTraceback_wrapped_original env first.1 first.2 false
  have hnotify := (runExceptions_occurred env rest (.wrapped .original)).2
  have hle := errorNotify_le_notify (runExceptions env rest (.wrapped .original) true).2
  have h3 : countErrorNotifies (runExceptions env rest (.wrapped .original) true).2 = 0 := by
    unfold countErrorNotifies
    omega
  have h1 : countErrorNotifies
      (runTraceback env first.1 first.2 (.wrapped .original) false).2 = 1 := by
    rw [hw]
    simp [countErrorNotifies, List.countP_cons, isErrorNotify, show_alert_error_count]
  refine ⟨h1, by rw [hw], h3, ?_⟩
  unfold countErrorNotifies at h1 h3 ⊢
  simp only [runExceptions]
  rw [hw]
  simp only [List.countP_append]
  simp [h3, List.countP_cons, isErrorNotify, show_alert_error_count]

/-- C2: installing is idempotent.  A second call to `enable_alerts` leaves
the session state exactly as after the first call and only reprints the
banner; a second call to `_setup_auto_error_detection` is a pure no-op; one
`enable_alerts` adds exactly one wrapper layer when the session is fresh and
a shell is present, and zero layers otherwise; and when the installed flag
is already set the install operation changes nothing and prints nothing. -/
theorem enable_alerts_idempotent (s : Session) :
    enable_alerts (enable_alerts s).1 = ((enable_alerts s).1, enableBannerEvents) ∧
    _setup_auto_error_detection (_setup_auto_error_detection s).1 =
      ((_setup_auto_error_detection s).1, []) ∧
    wrapDepth (enable_alerts s).1.showtraceback =
      wrapDepth s.showtraceback +
        (if s.errorHandlerInstalled = false ∧ s.ipythonAvailable = true ∧
            s.shellPresent = true then 1 else 0) ∧
    (s.errorHandlerInstalled = true → _setup_auto_error_detection s = (s, [])) := by
  obtain ⟨ipy, shell, tb, inst, occ⟩ := s
  cases inst <;> cases ipy <;> cases shell <;>
    simp [enable_alerts, _setup_auto_error_detection, wrapDepth, enableBannerEvents]

/-- C5: label resolution tries the interpreter-injected notebook-file
variable first and the parent-process command line second, returns the first
successful strategy, swallows each failure and falls through, and returns
`none` when everything fails.  The function is total, so it never raises. -/
theorem label_resolution_first_win (env : NameEnv) :
    _get_notebook_name env =
      if env.ipythonAvailable = true ∧ env.shellPresent = true then
        (vscStrategy env).orElse (fun _ => cmdlineStrategy env)
      else none := by
  obtain ⟨ipy, shell, vsc, pcl⟩ := env
  cases ipy with
  | false => simp [_get_notebook_name]
  | true =>
    cases shell with
    | false => simp [_get_notebook_name]
    | true =>
      rcases vsc with _ | (_ | p) <;>
        rcases pcl with _ | cmdline <;>
          simp [_get_notebook_name, vscStrategy, cmdlineStrategy, Option.orElse] <;>
            cases hf : cmdline.find? (fun arg => strEndsWith arg ".ipynb") <;> simp [hf]

/-- C6: on every invocation of the installed wrapper, in every session
state, the routine captured at install time runs first with the same
arguments; only afterwards is the error flag consulted, so the trace always
starts with the original traceback display, also after the first error. -/
theorem wrapper_invokes_original_first (env : DispatchEnv) (args : List String)
    (info : Option ExcInfo) (occurred : Bool) :
    (runTraceback env args info (.wrapped .original) occurred).2 =
      Event.origTraceback args ::
        (if occurred then [] else _show_alert env false (errorMessage info) none) ∧
    (runTraceback env args info (.wrapped .original) occurred).2.head? =
      some (Event.origTraceback args) := by
  rw [runTraceback_wrapped_original]
  exact ⟨rfl, rfl⟩

/-- C7: the one automatic alert dispatches the message built from the
exception kind and the value string truncated to at most 100 characters, and
dispatches the generic fallback message when no exception context is
available. -/
theorem auto_alert_message_content (env : DispatchEnv) (args : List String)
    (info : Option ExcInfo) :
    Event.notify false (errorMessage info) none ∈
      (runTraceback env args info (.wrapped .original) false).2 ∧
    (∀ t v, errorMessage (some ⟨t, v⟩) = t ++ ": " ++ strTruncate v 100) ∧
    (∀ v : String, (strTruncate v 100).length ≤ 100) ∧
    errorMessage none = "An error occurred during execution" := by
  refine ⟨?_, fun t v => rfl, fun v => strTruncate_length_le v 100, rfl⟩
  rw [runTraceback_wrapped_original]
  exact List.mem_cons_of_mem _ (show_alert_notify_mem env false (errorMessage info) none)

/-- C10: the Notifier entry point does not validate the status token.  With
no positional argument it prints the usage line and exits with status 1
without opening a window; with at least one, it opens a window whose success
flag is true exactly when the first token equals the string success
verbatim, so a capitalized token is rendered as an error alert. -/
theorem notifier_main_token_check (tok : String) (rest : List String) :
    showAlertMain [] = MainOutcome.usageExit usageLine 1 ∧
    showAlertMain (tok :: rest) =
      MainOutcome.window (tok == "success") (rest.getD 0 "") (rest.getD 1 "") ∧
    ((tok == "success") = true ↔ tok = "success") ∧
    showAlertMain ["Success"] = MainOutcome.window false "" "" ∧
    showAlertMain ["SUCCESS"] = MainOutcome.window false "" "" := by
  refine ⟨rfl, rfl, by simp, by decide, by decide⟩

/-- C3: the Dispatcher never raises to its caller.  The embedding of
`_show_alert` is a total function, and whenever the ordered search finds no
Notifier script, or the spawn raises, no process is spawned and the console
output carries the original message. -/
theorem show_alert_never_raises (env : DispatchEnv) (success : Bool)
    (message : String) (nb : Option String)
    (h : _get_alert_script_path env = none ∨ env.spawnExc ≠ none) :
    (_show_alert env success message nb).countP isSpawnEvent = 0 ∧
    ∃ line, Event.consoleLine line ∈ _show_alert env success message nb ∧
      strCarries message line := by
  cases hpath : _get_alert_script_path env with
  | none =>
      refine ⟨?_, fallbackLine success message, ?_, fallback_carries success message⟩
      · simp [_show_alert, hpath, List.countP_cons, isSpawnEvent]
      · simp [_show_alert, hpath]
  | some script =>
      have hexc : env.spawnExc ≠ none := by
        rcases h with h | h
        · rw [hpath] at h
          exact absurd h (by simp)
        · exact h
      obtain ⟨e, he⟩ := Option.ne_none_iff_exists'.mp hexc
      refine ⟨?_, fallbackLine success message, ?_, fallback_carries success message⟩
      · simp [_show_alert, hpath, he, List.countP_cons, isSpawnEvent]
      · simp [_show_alert, hpath, he]

lemma done_counts (env : DispatchEnv) (m : String) :
    (done env m).countP isNotifyEvent = 1 ∧
    (done env m).countP isSuccessNotify = 1 ∧
    (done env m).countP isErrorNotify = 0 := by
  refine ⟨?_, ?_, ?_⟩ <;>
    simp [done, List.countP_append, List.countP_cons, show_alert_notify_count,
      show_alert_success_count, show_alert_error_count,
      isNotifyEvent, isSuccessNotify, isErrorNotify]

lemma error_counts (env : DispatchEnv) (m : String) :
    (error env m).countP isNotifyEvent = 1 ∧
    (error env m).countP isSuccessNotify = 0 ∧
    (error env m).countP isErrorNotify = 1 := by
  refine ⟨?_, ?_, ?_⟩ <;>
    simp [error, List.countP_append, List.countP_cons, show_alert_notify_count,
      show_alert_success_count, show_alert_error_count,
      isNotifyEvent, isSuccessNotify, isErrorNotify]

/-- C4: each `done` call produces exactly one Dispatcher invocation, with
success status and the given message, and prints a confirmation line
carrying the message; each `error` call likewise with error status; the
session state passes through both operations untouched, so five calls of
each produce five success and five error Dispatcher invocations in every
session state. -/
theorem manual_alerts_unlimited (env : DispatchEnv) (s : Session) (m m2 : String) :
    (done env m).countP isNotifyEvent = 1 ∧
    Event.notify true m none ∈ done env m ∧
    (∃ line, Event.consoleLine line ∈ done env m ∧ strCarries m line) ∧
    (error env m2).countP isNotifyEvent = 1 ∧
    Event.notify false m2 none ∈ error env m2 ∧
    (∃ line, Event.consoleLine line ∈ error env m2 ∧ strCarries m2 line) ∧
    (stepSession env s (.callDone m)).1 = s ∧
    (stepSession env s (.callError m2)).1 = s ∧
    (runSession env s (List.replicate 5 (SessionAction.callDone m) ++
        List.replicate 5 (SessionAction.callError m2))).2.countP isSuccessNotify = 5 ∧
    (runSession env s (List.replicate 5 (SessionAction.callDone m) ++
        List.replicate 5 (SessionAction.callError m2))).2.countP isErrorNotify = 5 := by
  have hd := done_counts env m
  have he := error_counts env m2
  have hrep : List.replicate 5 (SessionAction.callDone m) ++
      List.replicate 5 (SessionAction.callError m2) =
      [SessionAction.callDone m, SessionAction.callDone m, SessionAction.callDone m,
       SessionAction.callDone m, SessionAction.callDone m, SessionAction.callError m2,
       SessionAction.callError m2, SessionAction.callError m2, SessionAction.callError m2,
       SessionAction.callError m2] := rfl
  refine ⟨hd.1, ?_, ⟨"✓ " ++ m, ?_, "✓ ", rfl⟩, he.1, ?_,
    ⟨"✗ " ++ m2, ?_, "✗ ", rfl⟩, rfl, rfl, ?_, ?_⟩
  · exact List.mem_append_left _ (show_alert_notify_mem env true m none)
  · exact List.mem_append_right _ (List.mem_singleton_self _)
  · exact List.mem_append_left _ (show_alert_notify_mem env false m2 none)
  · exact List.mem_append_right _ (List.mem_singleton_self _)
  · rw [hrep]
    simp [runSession, stepSession, List.countP_append, hd.2.1, he.2.1]
  · rw [hrep]
    simp [runSession, stepSession, List.countP_append, hd.2.2, he.2.2]

/-- C8: on a successful dispatch the Notifier process receives exactly the
positional arguments status token, message and label, after the interpreter
and the script path; the token is the string success exactly when the call
has success status and the string error otherwise; message and label pass
through verbatim, the label defaulting to the probed notebook name or the
empty string. -/
theorem notifier_spawn_args (env : DispatchEnv) (success : Bool) (message : String)
    (nb : Option String) (script : String)
    (h1 : _get_alert_script_path env = some script) (h2 : env.spawnExc = none) :
    _show_alert env success message nb =
      [Event.notify success message nb,
       Event.spawn env.pyExecutable script
         [if success then "success" else "error", message,
          nb.getD ((_get_notebook_name env.nameEnv).getD "")]] ∧
    ((if success then "success" else "error") = "success" ↔ success = true) ∧
    ((if success then "success" else "error") = "success" ∨
     (if success then "success" else "error") = "error") := by
  refine ⟨?_, ?_, ?_⟩
  · cases nb <;> simp [_show_alert, h1, h2, Option.getD]
  · cases success <;> simp
  · cases success <;> simp

/-- C9: with no interactive shell present, `enable_alerts` terminates
without exception (the embedding is total), leaves the session untouched
with the installed flag still false and the routine unwrapped, and every
later exception in that session produces zero Dispatcher calls. -/
theorem no_shell_install_noop (env : DispatchEnv) (s : Session)
    (invs : List (List String × Option ExcInfo))
    (h1 : s.shellPresent = false) (h2 : s.errorHandlerInstalled = false)
    (h3 : s.showtraceback = .original) :
    (enable_alerts s).1 = s ∧
    (enable_alerts s).1.errorHandlerInstalled = false ∧
    wrapDepth (enable_alerts s).1.showtraceback = 0 ∧
    (runExceptions env invs s.showtraceback s.errorOccurred).2.countP
      isNotifyEvent = 0 := by
  have hsetup : _setup_auto_error_detection s = (s, []) := by
    unfold _setup_auto_error_detection
    cases hip : s.ipythonAvailable <;> simp [h1, h2, hip]
  refine ⟨?_, ?_, ?_, ?_⟩
  · simp [enable_alerts, hsetup]
  · simp [enable_alerts, hsetup, h2]
  · simp [enable_alerts, hsetup, h3, wrapDepth]
  · rw [h3]
    exact runExceptions_original_no_notify env invs s.errorOccurred

/-! Concrete inputs used by the witnesses below. -/

/-- A name-resolution environment with a shell but failing strategies. -/
def nameEnvBare : NameEnv :=
  { ipythonAvailable := true, shellPresent := true,
    userNsVsc := some none, parentCmdline := none }

/-- A dispatcher environment in which the Notifier script exists nowhere. -/
def envNoScript : DispatchEnv :=
  { pyExecutable := "/usr/bin/python3", scriptDirPath := "/opt/mod",
    scriptDirHas := false, cwdPath := "/work", cwdHas := false,
    homePath := "/home/u", homeHas := false, spawnExc := none,
    nameEnv := nameEnvBare }

/-- A dispatcher environment in which the Notifier script sits next to the
module and spawning succeeds. -/
def envWithScript : DispatchEnv :=
  { pyExecutable := "/usr/bin/python3", scriptDirPath := "/opt/mod",
    scriptDirHas := true, cwdPath := "/work", cwdHas := false,
    homePath := "/home/u", homeHas := false, spawnExc := none,
    nameEnv := nameEnvBare }

/-- A session with the handler already installed. -/
def sessionInstalled : Session :=
  { ipythonAvailable := true, shellPresent := true,
    showtraceback := .wrapped .original, errorHandlerInstalled := true,
    errorOccurred := false }

/-- A fresh session without a shell. -/
def sessionNoShell : Session :=
  { ipythonAvailable := true, shellPresent := false,
    showtraceback := .original, errorHandlerInstalled := false,
    errorOccurred := false }

/-- Witness for C2: at a concrete already-installed session, the install
operation is a pure no-op. -/
theorem enable_alerts_idempotent_witness :
    _setup_auto_error_detection sessionInstalled = (sessionInstalled, []) :=
  (enable_alerts_idempotent sessionInstalled).2.2.2 rfl

/-- Witness for C3: at a concrete environment without the Notifier script,
the Dispatcher spawns nothing and a console line carries the message. -/
theorem show_alert_never_raises_witness :
    (_show_alert envNoScript false "boom" none).countP isSpawnEvent = 0 ∧
    ∃ line, Event.consoleLine line ∈ _show_alert envNoScript false "boom" none ∧
      strCarries "boom" line :=
  show_alert_never_raises envNoScript false "boom" none (Or.inl (by decide))

/-- Witness for C8: at a concrete environment with the script present, the
spawn carries exactly the status token, message and label. -/
theorem notifier_spawn_args_witness :
    _show_alert envWithScript false "fail" (some "nb") =
      [Event.notify false "fail" (some "nb"),
       Event.spawn "/usr/bin/python3" "/opt/mod/_show_alert.py"
         ["error", "fail", "nb"]] := by
  have h := (notifier_spawn_args envWithScript false "fail" (some "nb")
    "/opt/mod/_show_alert.py" (by decide) rfl).1
  simpa using h

/-- Witness for C9: at a concrete shell-less session, enabling alerts leaves
the session unchanged and one later exception dispatches nothing. -/
theorem no_shell_install_noop_witness :
    (enable_alerts sessionNoShell).1 = sessionNoShell ∧
    (runExceptions envNoScript [(["cell"], none)] sessionNoShell.showtraceback
      sessionNoShell.errorOccurred).2.countP isNotifyEvent = 0 :=
  ⟨(no_shell_install_noop envNoScript sessionNoShell [(["cell"], none)] rfl rfl rfl).1,
   (no_shell_install_noop envNoScript sessionNoShell [(["cell"], none)] rfl rfl rfl).2.2.2⟩

end NBAlert
